import Mathlib

/-!
Verification of the obsidian-tasks-fork line-toggle core.

Lines are modelled as lists of characters.  The two functions under
verification, toggleLine and calculateCursorOffset, are translated
from the source file containing toggleDone / toggleLine /
calculateCursorOffset.  The regular expressions of the Task module
(taskRegex, listItemRegex, indentationRegex, doneDateRegex), the
status registry and the Task parser itself are not part of the
provided sources; they are modelled from the spec where needed and
are marked as such in their doc comments.
-/

/-- Modelled from the spec: characters accepted as leading indentation by the
line grammar (spaces, tabs and the block-quote character); the grammar's
pattern begins with optional leading indentation made of these. -/
def isSpaceTabQuote (c : Char) : Bool :=
  c == ' ' || c == '\t' || c == '>'

/-- Line-terminator characters, which the dot of the source's regular
expressions never matches (newline, carriage return, and the two Unicode
line/paragraph separators). -/
def isLineTerm (c : Char) : Bool :=
  c == '\n' || c == '\r' || c == '\u2028' || c == '\u2029'

/-- Modelled from the spec: the list-marker alternatives of the line grammar,
a dash, an asterisk, or a run of digits followed by a dot.  Returns the
matched marker and the remainder of the input. -/
def matchListMarker (l : List Char) : Option (List Char × List Char) :=
  match l with
  | [] => none
  | c :: rest =>
    if c = '-' ∨ c = '*' then some ([c], rest)
    else if (c :: rest).takeWhile Char.isDigit ≠ [] ∧
        ((c :: rest).dropWhile Char.isDigit).head? = some '.' then
      some ((c :: rest).takeWhile Char.isDigit ++ ['.'],
            ((c :: rest).dropWhile Char.isDigit).tail)
    else none

/-- Modelled from the spec: the status box of the line grammar, an opening
bracket, a single status symbol (any character except a line terminator),
and a closing bracket. -/
def matchCheckbox (l : List Char) : Option (Char × List Char) :=
  match l with
  | a :: c :: b :: rest =>
    if a = '[' ∧ b = ']' ∧ isLineTerm c = false then some (c, rest) else none
  | _ => none

/-- Capture groups of the checklist-item (task) pattern: indentation, list
marker, the spaces before the status box, the status symbol, the spaces
after the status box, the body text, and the tail of the line beyond the
matched region (starting at the first line terminator, if any). -/
structure TaskMatch where
  indent : List Char
  listMarker : List Char
  spBefore : List Char
  statusSymbol : Char
  spAfter : List Char
  body : List Char
  tail : List Char
  deriving DecidableEq, Repr

/-- Modelled from the spec: the generic checklist-item (task) pattern of the
line grammar, anchored at the start of the line: optional leading
indentation, a list marker, one or more spaces, a status box, optional
spaces, then body text up to the end of the line. -/
def matchTaskRegex (line : List Char) : Option TaskMatch :=
  match matchListMarker (line.dropWhile isSpaceTabQuote) with
  | none => none
  | some (m, r1) =>
    if r1.takeWhile (fun c => c = ' ') = [] then none
    else
      match matchCheckbox (r1.dropWhile (fun c => c = ' ')) with
      | none => none
      | some (sym, r3) =>
        some { indent := line.takeWhile isSpaceTabQuote
               listMarker := m
               spBefore := r1.takeWhile (fun c => c = ' ')
               statusSymbol := sym
               spAfter := r3.takeWhile (fun c => c = ' ')
               body := (r3.dropWhile (fun c => c = ' ')).takeWhile
                 (fun c => isLineTerm c = false)
               tail := (r3.dropWhile (fun c => c = ' ')).dropWhile
                 (fun c => isLineTerm c = false) }

/-- Modelled from the spec: the generic list-item pattern, anchored at the
start of the line: optional leading indentation followed by a list marker.
Returns the indentation, the marker, and the rest of the line. -/
def matchListItem (line : List Char) : Option (List Char × List Char × List Char) :=
  match matchListMarker (line.dropWhile isSpaceTabQuote) with
  | none => none
  | some (m, rest) => some (line.takeWhile isSpaceTabQuote, m, rest)

/-- Modelled from the spec: a minimal two-status configuration of the status
model, todo to done to todo; every unregistered symbol resolves to the
default todo-like status, whose next status is done. -/
def defaultNextStatusSymbol (c : Char) : Char :=
  if c = 'x' then ' ' else 'x'

/-- Translation of toggleLine.  The Task parser-and-toggler (Task.fromLine
followed by Task.toggle and rendering, joined by newlines) is not in the
provided sources and is passed in as the parameter parseTaskToggle,
returning the replacement text when the line parses as a full Task and
none otherwise; the status registry lookup is the parameter next.  The
three fallback branches perform the source's regular-expression
substitutions: the checklist branch rewrites the matched region to
indentation, a dash, a space, the advanced status box, a space, and the
captured body; the list-item branch rewrites the matched region to
indentation, marker, and an empty status box; the plain-text branch
rewrites the leading indentation to itself followed by a list marker. -/
def toggleLine (parseTaskToggle : List Char → Option (List Char))
    (next : Char → Char) (line : List Char) : List Char :=
  match parseTaskToggle line with
  | some toggled => toggled
  | none =>
    match matchTaskRegex line with
    | some tm =>
      tm.indent ++ ('-' :: ' ' :: '[' :: next tm.statusSymbol :: ']' :: ' ' :: [])
        ++ tm.body ++ tm.tail
    | none =>
      match matchListItem line with
      | some (ind, m, rest) => ind ++ m ++ (' ' :: '[' :: ' ' :: ']' :: []) ++ rest
      | none =>
        line.takeWhile isSpaceTabQuote ++ ('-' :: ' ' :: [])
          ++ line.dropWhile isSpaceTabQuote

/-- Modelled from the spec: whether ten characters shape an ISO date literal,
four digits, a dash, two digits, a dash, two digits. -/
def isIsoDateAt (l : List Char) : Bool :=
  match l with
  | a :: b :: c :: d :: e :: f :: g :: p :: q :: r :: _ =>
    a.isDigit && b.isDigit && c.isDigit && d.isDigit && e == '-' &&
      f.isDigit && g.isDigit && p == '-' && q.isDigit && r.isDigit
  | _ => false

/-- Modelled from the spec: the done-date pattern matched at the head of the
input, the done marker emoji followed by optional spaces and an ISO date
literal. -/
def doneDateHere (l : List Char) : Bool :=
  match l with
  | c :: rest => c == '✅' && isIsoDateAt (rest.dropWhile (fun x => x == ' '))
  | [] => false

/-- Modelled from the spec: the unanchored done-date pattern test used by the
cursor reconciler, true when some suffix of the line begins with the done
marker emoji, optional spaces, and an ISO date literal. -/
def matchesDoneDate : List Char → Bool
  | [] => false
  | c :: rest => doneDateHere (c :: rest) || matchesDoneDate rest

/-- Whether the line contains an embedded line break with a non-terminator
character on each side, the meaning of the source's search for one or more
dots, a newline, and one or more dots (the dot never matches a line
terminator). -/
def hasEmbeddedBreak : List Char → Bool
  | a :: b :: c :: rest =>
    (!isLineTerm a && b == '\n' && !isLineTerm c) || hasEmbeddedBreak (b :: c :: rest)
  | _ => false

/-- Index of the first dash or asterisk in the line, or minus one when there
is none: the source's search for a list-marker character. -/
def searchMarker (l : List Char) : Int :=
  match l.findIdx? (fun c => c == '-' || c == '*') with
  | some i => (i : Int)
  | none => -1

/-- Width of the done-marker-plus-date annotation, the length of the string
holding a space, the done marker emoji, a space, and a date placeholder. -/
def doneDateLength : Int := ((" ✅ YYYY-MM-DD".data).length : Int)

/-- The new-line length after the done-date compensation of the cursor
reconciler: when the toggled line matches the done-date pattern and grew by
at least the annotation width, the annotation width is subtracted. -/
def adjustedNewLineLen (line toggledLine : List Char) : Int :=
  if matchesDoneDate toggledLine = true ∧
      (toggledLine.length : Int) - (line.length : Int) ≥ doneDateLength then
    (toggledLine.length : Int) - doneDateLength
  else (toggledLine.length : Int)

/-- The remaining policy steps of the cursor reconciler once the line is
known to have grown and the done-date compensation has produced the
adjusted length: the whole-line-duplication shift, then the first-list-
marker placement rule. -/
def remainingCursorPolicy (origCursorCh : Int) (line toggledLine : List Char)
    (newLineLen : Int) : Int :=
  if newLineLen ≥ 2 * (line.length : Int) ∧ hasEmbeddedBreak toggledLine = true then
    origCursorCh + newLineLen - (line.length : Int)
  else if origCursorCh < searchMarker toggledLine then origCursorCh
  else origCursorCh + newLineLen - (line.length : Int)

/-- Translation of calculateCursorOffset: if the line did not grow, the
original offset is kept unless it is at or past the new end, in which case
it snaps to the new end; otherwise the done-date compensation is applied
to the new length and the remaining policy steps decide the offset. -/
def calculateCursorOffset (origCursorCh : Int) (line toggledLine : List Char) : Int :=
  if (toggledLine.length : Int) ≤ (line.length : Int) then
    if origCursorCh ≥ (toggledLine.length : Int) then (toggledLine.length : Int)
    else origCursorCh
  else remainingCursorPolicy origCursorCh line toggledLine
    (adjustedNewLineLen line toggledLine)

/-- Modelled from the spec: cache state at the query entry point; only
warmness is observable there. -/
inductive CacheState where
  | Warm : CacheState
  | NotWarm : CacheState
  deriving DecidableEq

/-- Outcome of a promise: resolved with a value or rejected with an error. -/
inductive Settlement (α : Type) (ε : Type) where
  | resolved : α → Settlement α ε
  | rejected : ε → Settlement α ε
  deriving DecidableEq

/-- First settlement wins: settling an already-settled promise is a no-op. -/
def settleFirst {α ε : Type} (s : Option (Settlement α ε)) (nxt : Settlement α ε) :
    Option (Settlement α ε) :=
  match s with
  | none => some nxt
  | some s0 => some s0

/-- Message the query entry point rejects with when the cache is not warm. -/
def notWarmMessage : String := "Cache is not warm, but expected to be so."

/-- Translation of the promise executor of oneHotResolveQueryToTasks, with
promise settlement made explicit (first settlement wins).  The Query class
is not in the provided sources; it is modelled from the spec by its
observable boundary: queryError is the compile error of the query source,
if any, and applyQueryToTasks produces the ordered groups.  The executor
first rejects with the query error when one is defined, then, when the
cache is warm, flattens the groups through the external-task conversion,
otherwise rejects with the not-warm message, and finally resolves with the
flattened results. -/
def oneHotResolveQueryToTasks {α β : Type} (queryError : Option String)
    (applyQueryToTasks : List α → List (List α)) (toExternal : α → β)
    (tasks : List α) (state : CacheState) : Settlement (List β) String :=
  let s1 : Option (Settlement (List β) String) :=
    match queryError with
    | some e => settleFirst none (Settlement.rejected e)
    | none => none
  let step :=
    if state = CacheState.Warm then
      (((applyQueryToTasks tasks).map (fun g => g.map toExternal)).flatten, s1)
    else (([] : List β), settleFirst s1 (Settlement.rejected notWarmMessage))
  (settleFirst step.2 (Settlement.resolved step.1)).getD (Settlement.resolved [])

/-- Numeric value of the done-annotation width. -/
theorem doneDateLength_eq : doneDateLength = 13 := by decide

/-- The done-date compensation never increases the new length. -/
theorem adjustedNewLineLen_le (line toggledLine : List Char) :
    adjustedNewLineLen line toggledLine ≤ (toggledLine.length : Int) := by
  have h13 := doneDateLength_eq
  rw [adjustedNewLineLen]
  split_ifs <;> omega

/-- When the line grew, the compensated new length still is at least the old
length. -/
theorem adjustedNewLineLen_ge (line toggledLine : List Char)
    (h : (line.length : Int) < (toggledLine.length : Int)) :
    (line.length : Int) ≤ adjustedNewLineLen line toggledLine := by
  have h13 := doneDateLength_eq
  rw [adjustedNewLineLen]
  split_ifs with hc
  · obtain ⟨-, hc2⟩ := hc
    omega
  · omega

/-- C2: for every originalOffset with 0 <= originalOffset <= length(oldLine),
and every oldLine and newLine, calculateCursorOffset is a pure total
function whose result is never negative and never greater than the length
of newLine. -/
theorem calculateCursorOffset_bounds (origCursorCh : Int) (line toggledLine : List Char)
    (h0 : 0 ≤ origCursorCh) (h1 : origCursorCh ≤ (line.length : Int)) :
    0 ≤ calculateCursorOffset origCursorCh line toggledLine ∧
      calculateCursorOffset origCursorCh line toggledLine ≤ (toggledLine.length : Int) := by
  have hle := adjustedNewLineLen_le line toggledLine
  rw [calculateCursorOffset]
  split_ifs with hA hB
  · constructor <;> omega
  · constructor <;> omega
  · have hge := adjustedNewLineLen_ge line toggledLine (by omega)
    rw [remainingCursorPolicy]
    split_ifs with hC hD
    · constructor <;> omega
    · constructor <;> omega
    · constructor <;> omega

/-- Witness for C2 at offset one on a two-character old line and a
one-character new line. -/
theorem calculateCursorOffset_bounds_witness :
    0 ≤ calculateCursorOffset 1 ("ab".data) ("a".data) ∧
      calculateCursorOffset 1 ("ab".data) ("a".data) ≤ (("a".data).length : Int) :=
  calculateCursorOffset_bounds 1 ("ab".data) ("a".data) (by decide) (by decide)

/-- C3: when the new line is no longer than the old line, the offset is
returned clamped to the new length: snapped to the new end when at or past
it, kept unchanged otherwise; the result never exceeds the new length. -/
theorem calculateCursorOffset_shrink_clamp (origCursorCh : Int) (line toggledLine : List Char)
    (h : (toggledLine.length : Int) ≤ (line.length : Int)) :
    calculateCursorOffset origCursorCh line toggledLine =
      (if origCursorCh ≥ (toggledLine.length : Int) then (toggledLine.length : Int)
        else origCursorCh) ∧
      calculateCursorOffset origCursorCh line toggledLine ≤ (toggledLine.length : Int) := by
  rw [calculateCursorOffset, if_pos h]
  refine ⟨rfl, ?_⟩
  split_ifs <;> omega

/-- Witness for C3 at offset five with a three-character old line shrinking
to one character: the clamped result is the new end. -/
theorem calculateCursorOffset_shrink_clamp_witness :
    calculateCursorOffset 5 ("abc".data) ("a".data) = 1 := by
  have h := calculateCursorOffset_shrink_clamp 5 ("abc".data) ("a".data) (by decide)
  rw [h.1]
  decide

/-- C4: when the line grew, the done-date compensation subtracts exactly the
annotation width from the new length if and only if the new line matches
the done-date pattern and grew by at least that width, before the
remaining policy steps are applied. -/
theorem calculateCursorOffset_doneDate_adjust (origCursorCh : Int)
    (line toggledLine : List Char)
    (h : (line.length : Int) < (toggledLine.length : Int)) :
    (matchesDoneDate toggledLine = true ∧
        (toggledLine.length : Int) - (line.length : Int) ≥ doneDateLength →
      calculateCursorOffset origCursorCh line toggledLine =
        remainingCursorPolicy origCursorCh line toggledLine
          ((toggledLine.length : Int) - doneDateLength)) ∧
    (¬ (matchesDoneDate toggledLine = true ∧
        (toggledLine.length : Int) - (line.length : Int) ≥ doneDateLength) →
      calculateCursorOffset origCursorCh line toggledLine =
        remainingCursorPolicy origCursorCh line toggledLine ((toggledLine.length : Int))) := by
  rw [calculateCursorOffset, if_neg (by omega), adjustedNewLineLen]
  constructor
  · intro hc
    rw [if_pos hc]
  · intro hc
    rw [if_neg hc]

/-- Witness for C4 on a task line gaining exactly the done annotation. -/
theorem calculateCursorOffset_doneDate_adjust_witness :
    calculateCursorOffset 3 ("- [ ] Buy milk".data)
        ("- [x] Buy milk ✅ 2024-01-01".data) =
      remainingCursorPolicy 3 ("- [ ] Buy milk".data)
        ("- [x] Buy milk ✅ 2024-01-01".data)
        ((("- [x] Buy milk ✅ 2024-01-01".data).length : Int) - doneDateLength) := by
  have h := calculateCursorOffset_doneDate_adjust 3 ("- [ ] Buy milk".data)
    ("- [x] Buy milk ✅ 2024-01-01".data) (by decide)
  exact h.1 (by decide)

/-- C5: when the line grew and, after the done-date compensation, at least
doubled and the new line has an embedded line break with a non-terminator
character on each side, the offset is shifted right by the full remaining
length delta, for every original offset. -/
theorem calculateCursorOffset_duplication_shift (origCursorCh : Int)
    (line toggledLine : List Char)
    (h : (line.length : Int) < (toggledLine.length : Int))
    (hdup : adjustedNewLineLen line toggledLine ≥ 2 * (line.length : Int))
    (hbreak : hasEmbeddedBreak toggledLine = true) :
    calculateCursorOffset origCursorCh line toggledLine =
      origCursorCh + adjustedNewLineLen line toggledLine - (line.length : Int) := by
  rw [calculateCursorOffset, if_neg (by omega), remainingCursorPolicy,
    if_pos ⟨hdup, hbreak⟩]

/-- Witness for C5 on the recurrence split of a task line. -/
theorem calculateCursorOffset_duplication_shift_witness :
    calculateCursorOffset 0 ("- [ ] Pay rent".data)
      ("- [ ] Pay rent\n- [x] Pay rent ✅ 2024-01-15".data) = 15 := by
  rw [calculateCursorOffset_duplication_shift 0 ("- [ ] Pay rent".data)
    ("- [ ] Pay rent\n- [x] Pay rent ✅ 2024-01-15".data)
    (by decide) (by decide) (by decide)]
  decide

/-- C6: when the line grew and the duplication case does not apply, the
offset is kept when strictly before the first list-marker character of the
new line and otherwise shifted right by the full adjusted length delta. -/
theorem calculateCursorOffset_marker_policy (origCursorCh : Int)
    (line toggledLine : List Char)
    (h : (line.length : Int) < (toggledLine.length : Int))
    (hnd : ¬ (adjustedNewLineLen line toggledLine ≥ 2 * (line.length : Int) ∧
        hasEmbeddedBreak toggledLine = true)) :
    calculateCursorOffset origCursorCh line toggledLine =
      if origCursorCh < searchMarker toggledLine then origCursorCh
      else origCursorCh + adjustedNewLineLen line toggledLine - (line.length : Int) := by
  rw [calculateCursorOffset, if_neg (by omega), remainingCursorPolicy, if_neg hnd]

/-- Witness for C6 on the blank line gaining a list marker: offset zero is at
the marker position and moves right by two. -/
theorem calculateCursorOffset_marker_policy_witness :
    calculateCursorOffset 0 ([] : List Char) ("- ".data) = 2 := by
  rw [calculateCursorOffset_marker_policy 0 ([] : List Char) ("- ".data)
    (by decide) (by decide)]
  decide

/-- C10: the reconciler depends on the old line only through its length: two
old lines of equal length give equal results for every offset and new
line. -/
theorem calculateCursorOffset_depends_only_on_length (origCursorCh : Int)
    (toggledLine line1 line2 : List Char) (h : line1.length = line2.length) :
    calculateCursorOffset origCursorCh line1 toggledLine =
      calculateCursorOffset origCursorCh line2 toggledLine := by
  simp only [calculateCursorOffset, remainingCursorPolicy, adjustedNewLineLen, h]

/-- Witness for C10 with two distinct old lines of length two. -/
theorem calculateCursorOffset_depends_only_on_length_witness :
    calculateCursorOffset 2 ("ab".data) ("abcd".data) =
      calculateCursorOffset 2 ("xy".data) ("abcd".data) :=
  calculateCursorOffset_depends_only_on_length 2 ("abcd".data) ("ab".data) ("xy".data)
    (by decide)

/-- A list whose optional head is some value decomposes as that value
followed by its tail. -/
theorem head?_decomp {α : Type} {l : List α} {a : α} (h : l.head? = some a) :
    l = a :: l.tail := by
  cases l <;> simp_all

/-- Soundness of the list-marker matcher: the marker followed by the
remainder reassembles the input. -/
theorem matchListMarker_sound {l m r : List Char}
    (h : matchListMarker l = some (m, r)) : l = m ++ r := by
  match l with
  | [] => simp [matchListMarker] at h
  | c :: rest =>
    simp only [matchListMarker] at h
    split_ifs at h with h1 h2
    · obtain ⟨rfl, rfl⟩ : [c] = m ∧ rest = r := by simpa using h
      simp
    · obtain ⟨-, h2b⟩ := h2
      obtain ⟨rfl, rfl⟩ :
          (c :: rest).takeWhile Char.isDigit ++ ['.'] = m ∧
            ((c :: rest).dropWhile Char.isDigit).tail = r := by simpa using h
      conv_lhs => rw [← List.takeWhile_append_dropWhile (p := Char.isDigit) (l := c :: rest)]
      rw [head?_decomp h2b]
      simp

/-- Soundness of the status-box matcher: the input is the bracketed symbol
followed by the remainder, and the symbol is not a line terminator. -/
theorem matchCheckbox_sound {l : List Char} {c : Char} {r : List Char}
    (h : matchCheckbox l = some (c, r)) :
    l = '[' :: c :: ']' :: r ∧ isLineTerm c = false := by
  match l with
  | [] => simp [matchCheckbox] at h
  | [_] => simp [matchCheckbox] at h
  | [_, _] => simp [matchCheckbox] at h
  | a :: x :: b :: rest =>
    simp only [matchCheckbox] at h
    split_ifs at h with h1
    obtain ⟨rfl, rfl, h1c⟩ := h1
    obtain ⟨rfl, rfl⟩ : x = c ∧ rest = r := by simpa using h
    exact ⟨rfl, h1c⟩

/-- Soundness of the checklist-item pattern: the capture groups reassemble
the line exactly, and the status symbol is not a line terminator. -/
theorem matchTaskRegex_sound {line : List Char} {tm : TaskMatch}
    (h : matchTaskRegex line = some tm) :
    line = tm.indent ++ tm.listMarker ++ tm.spBefore ++
      ('[' :: tm.statusSymbol :: ']' :: (tm.spAfter ++ tm.body ++ tm.tail)) ∧
    isLineTerm tm.statusSymbol = false := by
  rw [matchTaskRegex] at h
  rcases hm : matchListMarker (line.dropWhile isSpaceTabQuote) with _ | ⟨m, r1⟩ <;>
    rw [hm] at h
  · simp at h
  · simp only [] at h
    split_ifs at h with hsp
    rcases hc : matchCheckbox (r1.dropWhile (fun c => c = ' ')) with _ | ⟨sym, r3⟩ <;>
      rw [hc] at h
    · simp at h
    · simp only [Option.some.injEq] at h
      subst h
      obtain ⟨hcb, hterm⟩ := matchCheckbox_sound hc
      refine ⟨?_, hterm⟩
      simp only
      conv_lhs => rw [← List.takeWhile_append_dropWhile (p := isSpaceTabQuote) (l := line)]
      rw [matchListMarker_sound hm]
      conv_lhs => rw [← List.takeWhile_append_dropWhile (p := fun c => c = ' ') (l := r1)]
      rw [hcb]
      conv_lhs => rw [← List.takeWhile_append_dropWhile
        (p := fun c => isLineTerm c = false) (l := r3)]
      simp

/-- Soundness of the list-item pattern: indentation, marker and remainder
reassemble the line. -/
theorem matchListItem_sound {line ind m rest : List Char}
    (h : matchListItem line = some (ind, m, rest)) : line = ind ++ m ++ rest := by
  rw [matchListItem] at h
  rcases hm : matchListMarker (line.dropWhile isSpaceTabQuote) with _ | ⟨m0, r0⟩ <;>
    rw [hm] at h
  · simp at h
  · simp only [Option.some.injEq, Prod.mk.injEq] at h
    obtain ⟨rfl, rfl, rfl⟩ := h
    conv_lhs => rw [← List.takeWhile_append_dropWhile (p := isSpaceTabQuote) (l := line)]
    rw [matchListMarker_sound hm]
    simp

/-- C1 (counterexample): a checklist item whose list marker is an asterisk is
toggled to a line whose marker became a dash, so toggling does not leave
the list marker unchanged. -/
theorem toggleLine_checklist_marker_not_preserved :
    (matchTaskRegex ("* [ ] hi".data)).isSome = true ∧
    toggleLine (fun _ => none) defaultNextStatusSymbol ("* [ ] hi".data) =
      "- [x] hi".data ∧
    toggleLine (fun _ => none) defaultNextStatusSymbol ("* [ ] hi".data) ≠
      "* [x] hi".data := by
  decide

/-- C1 (amended): for every line that matches the checklist-item pattern but
does not parse as a full Task record, toggling replaces the status symbol
with the status model's next symbol and preserves the indentation, the
body text and the tail, while normalizing the list marker to a dash and
the spacing around the status box to single spaces. -/
theorem toggleLine_checklist_normalizes (parseTaskToggle : List Char → Option (List Char))
    (next : Char → Char) (line : List Char) (tm : TaskMatch)
    (hp : parseTaskToggle line = none) (hm : matchTaskRegex line = some tm) :
    line = tm.indent ++ tm.listMarker ++ tm.spBefore ++
      ('[' :: tm.statusSymbol :: ']' :: (tm.spAfter ++ tm.body ++ tm.tail)) ∧
    toggleLine parseTaskToggle next line =
      tm.indent ++ ('-' :: ' ' :: '[' :: next tm.statusSymbol :: ']' :: ' ' :: [])
        ++ tm.body ++ tm.tail := by
  refine ⟨(matchTaskRegex_sound hm).1, ?_⟩
  simp [toggleLine, hp, hm]

/-- Witness for the amended C1 on an asterisk-marked checklist item. -/
theorem toggleLine_checklist_normalizes_witness :
    ("* [ ] hi".data : List Char) = [] ++ ['*'] ++ [' '] ++
      ('[' :: ' ' :: ']' :: ([' '] ++ ['h', 'i'] ++ [])) ∧
    toggleLine (fun _ => none) defaultNextStatusSymbol ("* [ ] hi".data) =
      [] ++ ('-' :: ' ' :: '[' :: defaultNextStatusSymbol ' ' :: ']' :: ' ' :: [])
        ++ ['h', 'i'] ++ [] :=
  toggleLine_checklist_normalizes (fun _ => none) defaultNextStatusSymbol
    ("* [ ] hi".data) ⟨[], ['*'], [' '], ' ', [' '], ['h', 'i'], []⟩
    rfl (by decide)

/-- C7: on a line that does not parse as a full Task, the fallbacks are tried
in priority order: a matching checklist item is toggled through the status
model; otherwise a matching list item gains an empty status box after its
marker; otherwise the line gains a list marker after its leading
indentation, so the line of two spaces then the text Just text toggles to
the same indentation, a dash, a space, and the text. -/
theorem toggleLine_fallback_classification (parseTaskToggle : List Char → Option (List Char))
    (next : Char → Char) (line ind m rest : List Char)
    (hp : parseTaskToggle line = none) :
    (∀ tm : TaskMatch, matchTaskRegex line = some tm →
      toggleLine parseTaskToggle next line =
        tm.indent ++ ('-' :: ' ' :: '[' :: next tm.statusSymbol :: ']' :: ' ' :: [])
          ++ tm.body ++ tm.tail) ∧
    (matchTaskRegex line = none → matchListItem line = some (ind, m, rest) →
      line = ind ++ m ++ rest ∧
      toggleLine parseTaskToggle next line =
        ind ++ m ++ (' ' :: '[' :: ' ' :: ']' :: []) ++ rest) ∧
    (matchTaskRegex line = none → matchListItem line = none →
      toggleLine parseTaskToggle next line =
        line.takeWhile isSpaceTabQuote ++ ('-' :: ' ' :: [])
          ++ line.dropWhile isSpaceTabQuote) ∧
    toggleLine (fun _ => none) defaultNextStatusSymbol ("  Just text".data) =
      ("  - Just text".data) := by
  refine ⟨?_, ?_, ?_, by decide⟩
  · intro tm hm
    simp [toggleLine, hp, hm]
  · intro hm hl
    refine ⟨matchListItem_sound hl, ?_⟩
    simp [toggleLine, hp, hm, hl]
  · intro hm hl
    simp [toggleLine, hp, hm, hl]

/-- Witness for C7 on a plain list item gaining an empty status box. -/
theorem toggleLine_fallback_classification_witness :
    toggleLine (fun _ => none) defaultNextStatusSymbol ("- foo".data) =
      [] ++ ['-'] ++ (' ' :: '[' :: ' ' :: ']' :: []) ++ (' ' :: ['f', 'o', 'o']) := by
  have h := toggleLine_fallback_classification (fun _ => none) defaultNextStatusSymbol
    ("- foo".data) [] ['-'] (' ' :: ['f', 'o', 'o']) rfl
  exact (h.2.1 (by decide) (by decide)).2

/-- C8: toggleLine is total by construction and, on every line, exactly one
of the four branches applies, full-Task toggle first, then checklist
toggle, then list-item conversion, then plain-text conversion, each
producing the stated defined replacement string. -/
theorem toggleLine_total_four_branches (parseTaskToggle : List Char → Option (List Char))
    (next : Char → Char) (line : List Char) :
    ((parseTaskToggle line).isSome = true ∨
      (parseTaskToggle line = none ∧ (matchTaskRegex line).isSome = true) ∨
      (parseTaskToggle line = none ∧ matchTaskRegex line = none ∧
        (matchListItem line).isSome = true) ∨
      (parseTaskToggle line = none ∧ matchTaskRegex line = none ∧
        matchListItem line = none)) ∧
    ¬ ((parseTaskToggle line).isSome = true ∧ parseTaskToggle line = none) ∧
    ¬ ((matchTaskRegex line).isSome = true ∧ matchTaskRegex line = none) ∧
    ¬ ((matchListItem line).isSome = true ∧ matchListItem line = none) ∧
    (∀ t, parseTaskToggle line = some t → toggleLine parseTaskToggle next line = t) ∧
    (∀ tm : TaskMatch, parseTaskToggle line = none → matchTaskRegex line = some tm →
      toggleLine parseTaskToggle next line =
        tm.indent ++ ('-' :: ' ' :: '[' :: next tm.statusSymbol :: ']' :: ' ' :: [])
          ++ tm.body ++ tm.tail) ∧
    (∀ ind m rest, parseTaskToggle line = none → matchTaskRegex line = none →
      matchListItem line = some (ind, m, rest) →
      toggleLine parseTaskToggle next line =
        ind ++ m ++ (' ' :: '[' :: ' ' :: ']' :: []) ++ rest) ∧
    (parseTaskToggle line = none → matchTaskRegex line = none →
      matchListItem line = none →
      toggleLine parseTaskToggle next line =
        line.takeWhile isSpaceTabQuote ++ ('-' :: ' ' :: [])
          ++ line.dropWhile isSpaceTabQuote) := by
  refine ⟨?_, ?_, ?_, ?_, ?_, ?_, ?_, ?_⟩
  · rcases hp : parseTaskToggle line with _ | t
    · rcases hm : matchTaskRegex line with _ | tm
      · rcases hl : matchListItem line with _ | x
        · exact Or.inr (Or.inr (Or.inr ⟨rfl, rfl, rfl⟩))
        · exact Or.inr (Or.inr (Or.inl ⟨rfl, rfl, by simp⟩))
      · exact Or.inr (Or.inl ⟨rfl, by simp⟩)
    · exact Or.inl (by simp)
  · rintro ⟨h1, h2⟩
    simp [h2] at h1
  · rintro ⟨h1, h2⟩
    simp [h2] at h1
  · rintro ⟨h1, h2⟩
    simp [h2] at h1
  · intro t hp
    simp [toggleLine, hp]
  · intro tm hp hm
    simp [toggleLine, hp, hm]
  · intro ind m rest hp hm hl
    simp [toggleLine, hp, hm, hl]
  · intro hp hm hl
    simp [toggleLine, hp, hm, hl]

/-- Witness for C8: the checklist branch applies to and toggles a dash-marked
checklist item. -/
theorem toggleLine_total_four_branches_witness :
    toggleLine (fun _ => none) defaultNextStatusSymbol ("- [ ] hi".data) =
      [] ++ ('-' :: ' ' :: '[' :: defaultNextStatusSymbol ' ' :: ']' :: ' ' :: [])
        ++ ['h', 'i'] ++ [] := by
  have h := toggleLine_total_four_branches (fun _ => none) defaultNextStatusSymbol
    ("- [ ] hi".data)
  exact h.2.2.2.2.2.1 ⟨[], ['-'], [' '], ' ', [' '], ['h', 'i'], []⟩ rfl (by decide)

/-- C9: when the query source fails to compile, the query entry point settles
as rejected with the query error, which is distinct from every resolved
value, so no task results computed from the erroneous query are ever
delivered. -/
theorem oneHotResolveQueryToTasks_rejects_on_error {α β : Type} (e : String)
    (applyQueryToTasks : List α → List (List α)) (toExternal : α → β)
    (tasks : List α) (state : CacheState) :
    oneHotResolveQueryToTasks (some e) applyQueryToTasks toExternal tasks state =
      Settlement.rejected e ∧
    ∀ v : List β, oneHotResolveQueryToTasks (some e) applyQueryToTasks toExternal
      tasks state ≠ Settlement.resolved v := by
  have h : oneHotResolveQueryToTasks (some e) applyQueryToTasks toExternal tasks state =
      Settlement.rejected e := by
    cases state <;> simp [oneHotResolveQueryToTasks, settleFirst]
  refine ⟨h, fun v hv => ?_⟩
  rw [h] at hv
  exact Settlement.noConfusion hv

/-- Witness for C9 with a concrete erroneous query over an empty warm
cache. -/
theorem oneHotResolveQueryToTasks_rejects_on_error_witness :
    oneHotResolveQueryToTasks (α := Nat) (β := Nat) (some "do not understand query")
      (fun _ => []) (fun t => t) [] CacheState.Warm =
      Settlement.rejected "do not understand query" :=
  (oneHotResolveQueryToTasks_rejects_on_error "do not understand query"
    (fun _ => []) (fun t => t) [] CacheState.Warm).1
